import Mathlib

/-
Verification development for the layer/dataset factory subsystem of the
caffe repository (files: include/caffe/layer_factory.hpp,
src/caffe/layer_factory.cpp, src/caffe/dataset_factory.cpp).

Modelling conventions:
- `LayerParameter_LayerType` (a protobuf enum, an `int` in C++) is a `Nat`.
- `std::map<LayerParameter_LayerType, Creator>` is an association list with
  unique keys; `regCount` models `std::map::count`, which for a unique-key
  map is 1 when the key is present and 0 otherwise.
- A fatal path (glog `CHECK_EQ` failure or `LOG(FATAL)`) is `Except.error msg`
  where `msg` is the diagnostic text the process prints before terminating:
  glog prints `Check failed: <expr> (<lhs> vs. <rhs>) <streamed text>` for a
  failed CHECK_EQ, and the streamed text alone for LOG(FATAL).
- `LOG(INFO)` lines are collected in the `infoLogs` field of a successful
  result.
- The compile-time flags `USE_CUDNN` and `_MSC_VER` are explicit `Bool`
  parameters (`useCudnn`, `msvc`).
- The numeric-precision template parameter `Dtype` (float/double) is the
  `Precision` tag: the two template instantiations of `LayerRegistry` own
  two separate static registries, modelled as a function from the tag to a
  registry.
-/

namespace Caffe

/-- The engine enums (ConvolutionParameter_Engine, PoolingParameter_Engine,
ReLUParameter_Engine, SigmoidParameter_Engine, SoftmaxParameter_Engine,
TanHParameter_Engine) all have the same three values DEFAULT, CAFFE, CUDNN. -/
inductive Engine where
  | DEFAULT
  | CAFFE
  | CUDNN
deriving DecidableEq, Repr

/-- ConvolutionParameter: only the `engine` field is read by the factory. -/
structure ConvolutionParameter where
  engine : Engine
deriving DecidableEq, Repr

/-- PoolingParameter: the factory reads `engine`, `pad`, `pad_h`, `pad_w`
(uint32 fields, default 0). -/
structure PoolingParameter where
  engine : Engine
  pad : Nat
  pad_h : Nat
  pad_w : Nat
deriving DecidableEq, Repr

/-- ReLUParameter: only the `engine` field is read by the factory. -/
structure ReLUParameter where
  engine : Engine
deriving DecidableEq, Repr

/-- SigmoidParameter: only the `engine` field is read by the factory. -/
structure SigmoidParameter where
  engine : Engine
deriving DecidableEq, Repr

/-- SoftmaxParameter: only the `engine` field is read by the factory. -/
structure SoftmaxParameter where
  engine : Engine
deriving DecidableEq, Repr

/-- TanHParameter: only the `engine` field is read by the factory. -/
structure TanHParameter where
  engine : Engine
deriving DecidableEq, Repr

/-- LayerParameter_LayerType: protobuf enum, an integer. -/
abbrev LayerType := Nat

/-- The fields of the LayerParameter protobuf message that the factory
subsystem reads: name, type, top_size (number of named outputs), and the
per-family parameter blocks. -/
structure LayerParameter where
  name : String
  type : LayerType
  top_size : Nat
  convolution_param : ConvolutionParameter
  pooling_param : PoolingParameter
  relu_param : ReLUParameter
  sigmoid_param : SigmoidParameter
  softmax_param : SoftmaxParameter
  tanh_param : TanHParameter
deriving DecidableEq, Repr

/-- The concrete Layer subclasses that the factory code in
layer_factory.cpp constructs, each carrying the configuration it was
constructed from (`new X<Dtype>(param)`). -/
inductive LayerInstance where
  | ConvolutionLayer (param : LayerParameter)
  | CuDNNConvolutionLayer (param : LayerParameter)
  | PoolingLayer (param : LayerParameter)
  | CuDNNPoolingLayer (param : LayerParameter)
  | ReLULayer (param : LayerParameter)
  | CuDNNReLULayer (param : LayerParameter)
  | SigmoidLayer (param : LayerParameter)
  | CuDNNSigmoidLayer (param : LayerParameter)
  | SoftmaxLayer (param : LayerParameter)
  | CuDNNSoftmaxLayer (param : LayerParameter)
  | TanHLayer (param : LayerParameter)
  | CuDNNTanHLayer (param : LayerParameter)
deriving DecidableEq, Repr

/-- Result of a successful creator call: the informational log lines it
emitted (in order) and the heap-allocated layer instance it returned. -/
structure CreatorResult where
  infoLogs : List String
  layer : LayerInstance
deriving DecidableEq, Repr

/-- `Creator` = `Layer<Dtype>* (*)(const LayerParameter&)`: a creator either
returns an instance (with any INFO log lines) or hits a LOG(FATAL). -/
abbrev Creator := LayerParameter → Except String CreatorResult

/-- `CreatorRegistry` = `std::map<LayerParameter_LayerType, Creator>`,
as an association list with unique keys. -/
abbrev CreatorRegistry := List (LayerType × Creator)

/-- `registry.count(type)` for the unique-key std::map: 1 if the key is
present, 0 otherwise. -/
def regCount (reg : CreatorRegistry) (t : LayerType) : Nat :=
  match List.lookup t reg with
  | some _ => 1
  | none => 0

/-- Diagnostic printed by the failing `CHECK_EQ(registry.count(type), 0)`
in AddCreator, including its streamed message, which names the type. -/
def addCreatorFailMsg (t : LayerType) : String :=
  "Check failed: registry.count(type) == 0 (1 vs. 0) Layer type " ++
    toString t ++ " already registered."

/-- LayerRegistry::AddCreator: `CHECK_EQ(registry.count(type), 0)` (fatal on
a duplicate, with a streamed message naming the type), then
`registry[type] = creator` (insert; the key is absent at this point). -/
def AddCreator (reg : CreatorRegistry) (t : LayerType) (c : Creator) :
    Except String CreatorRegistry :=
  if regCount reg t = 0 then .ok ((t, c) :: reg)
  else .error (addCreatorFailMsg t)

/-- Diagnostic printed by the failing bare `CHECK_EQ(registry.count(type), 1)`
in CreateLayer: glog prints only the expression text and the two compared
values (the count, which is 0, and 1); nothing in it names the type. -/
def createLayerFailMsg : String :=
  "Check failed: registry.count(type) == 1 (0 vs. 1)"

/-- LayerRegistry::CreateLayer: `LOG(INFO) << "Creating layer " << name`,
then `CHECK_EQ(registry.count(type), 1)` (fatal when the type is
unregistered; for a unique-key map count = 1 exactly when lookup succeeds),
then `return registry[type](param)` (the key is present here, so
`operator[]` is a pure read). -/
def CreateLayer (reg : CreatorRegistry) (param : LayerParameter) :
    Except String CreatorResult :=
  match List.lookup param.type reg with
  | none => .error createLayerFailMsg
  | some c =>
    match c param with
    | .ok r => .ok ⟨("Creating layer " ++ param.name) :: r.infoLogs, r.layer⟩
    | .error e => .error e

/-- The two numeric-precision template instantiations of LayerRegistry
(float and double), each owning its own static registry. -/
inductive Precision where
  | float
  | double
deriving DecidableEq, Repr

/-- The pair of per-precision static registries, as a function from the
precision tag. -/
abbrev TaggedRegistries := Precision → CreatorRegistry

/-- AddCreator on the registry of one precision tag: the other tag's
registry is static state of a different template instantiation and is not
touched. -/
def addCreatorTagged (tag : Precision) (st : TaggedRegistries)
    (t : LayerType) (c : Creator) : Except String TaggedRegistries :=
  match AddCreator (st tag) t c with
  | .ok reg => .ok (fun tag2 => if tag2 = tag then reg else st tag2)
  | .error e => .error e

/-- The engine-resolution step shared verbatim by all six engine-selecting
creators in layer_factory.cpp:
`if (engine == DEFAULT) { engine = CAFFE; #ifdef USE_CUDNN engine = CUDNN; }`.
An explicit non-DEFAULT preference passes through unchanged. -/
def resolveEngine (useCudnn : Bool) (engine : Engine) : Engine :=
  if engine = Engine.DEFAULT then
    (if useCudnn then Engine.CUDNN else Engine.CAFFE)
  else engine

/-- Fatal diagnostic of every engine-selecting creator's final else branch:
`LOG(FATAL) << "Layer " << param.name() << " has unknown engine."`. -/
def unknownEngineMsg (name : String) : String :=
  "Layer " ++ name ++ " has unknown engine."

/-- GetConvolutionLayer (layer_factory.cpp). The CUDNN branch only exists
when USE_CUDNN is compiled in. -/
def GetConvolutionLayer (useCudnn : Bool) (param : LayerParameter) :
    Except String CreatorResult :=
  let engine := resolveEngine useCudnn param.convolution_param.engine
  if engine = Engine.CAFFE then
    .ok ⟨[], .ConvolutionLayer param⟩
  else if useCudnn = true ∧ engine = Engine.CUDNN then
    .ok ⟨[], .CuDNNConvolutionLayer param⟩
  else
    .error (unknownEngineMsg param.name)

/-- The INFO diagnostic GetPoolingLayer emits when downgrading from CUDNN
to the Caffe pooling layer. -/
def poolingDowngradeMsg : String :=
  "CUDNN does not support padding or multiple tops. " ++
    "Using Caffe's own pooling layer."

/-- GetPoolingLayer (layer_factory.cpp). In the CUDNN branch, padding
(pad, pad_h or pad_w nonzero) or more than one top forces the Caffe
pooling layer with an INFO log instead of the CuDNN one. -/
def GetPoolingLayer (useCudnn : Bool) (param : LayerParameter) :
    Except String CreatorResult :=
  let engine := resolveEngine useCudnn param.pooling_param.engine
  if engine = Engine.CAFFE then
    .ok ⟨[], .PoolingLayer param⟩
  else if useCudnn = true ∧ engine = Engine.CUDNN then
    let p_param := param.pooling_param
    if p_param.pad ≠ 0 ∨ p_param.pad_h ≠ 0 ∨ p_param.pad_w ≠ 0 ∨
        param.top_size > 1 then
      .ok ⟨[poolingDowngradeMsg], .PoolingLayer param⟩
    else
      .ok ⟨[], .CuDNNPoolingLayer param⟩
  else
    .error (unknownEngineMsg param.name)

/-- GetReLULayer (layer_factory.cpp). -/
def GetReLULayer (useCudnn : Bool) (param : LayerParameter) :
    Except String CreatorResult :=
  let engine := resolveEngine useCudnn param.relu_param.engine
  if engine = Engine.CAFFE then
    .ok ⟨[], .ReLULayer param⟩
  else if useCudnn = true ∧ engine = Engine.CUDNN then
    .ok ⟨[], .CuDNNReLULayer param⟩
  else
    .error (unknownEngineMsg param.name)

/-- GetSigmoidLayer (layer_factory.cpp). -/
def GetSigmoidLayer (useCudnn : Bool) (param : LayerParameter) :
    Except String CreatorResult :=
  let engine := resolveEngine useCudnn param.sigmoid_param.engine
  if engine = Engine.CAFFE then
    .ok ⟨[], .SigmoidLayer param⟩
  else if useCudnn = true ∧ engine = Engine.CUDNN then
    .ok ⟨[], .CuDNNSigmoidLayer param⟩
  else
    .error (unknownEngineMsg param.name)

/-- GetSoftmaxLayer (layer_factory.cpp). -/
def GetSoftmaxLayer (useCudnn : Bool) (param : LayerParameter) :
    Except String CreatorResult :=
  let engine := resolveEngine useCudnn param.softmax_param.engine
  if engine = Engine.CAFFE then
    .ok ⟨[], .SoftmaxLayer param⟩
  else if useCudnn = true ∧ engine = Engine.CUDNN then
    .ok ⟨[], .CuDNNSoftmaxLayer param⟩
  else
    .error (unknownEngineMsg param.name)

/-- GetTanHLayer (layer_factory.cpp). -/
def GetTanHLayer (useCudnn : Bool) (param : LayerParameter) :
    Except String CreatorResult :=
  let engine := resolveEngine useCudnn param.tanh_param.engine
  if engine = Engine.CAFFE then
    .ok ⟨[], .TanHLayer param⟩
  else if useCudnn = true ∧ engine = Engine.CUDNN then
    .ok ⟨[], .CuDNNTanHLayer param⟩
  else
    .error (unknownEngineMsg param.name)

/-- DataParameter_DB: protobuf enum with LEVELDB = 0, LMDB = 1, an integer
in C++. -/
abbrev DataParameter_DB := Nat

/-- DataParameter_DB_LEVELDB = 0. -/
def DataParameter_DB_LEVELDB : DataParameter_DB := 0

/-- DataParameter_DB_LMDB = 1. -/
def DataParameter_DB_LMDB : DataParameter_DB := 1

/-- The concrete Dataset adapters dataset_factory.cpp constructs. -/
inductive DatasetInstance where
  | LeveldbDataset
  | LmdbDataset
deriving DecidableEq, Repr

/-- The enum overload `DatasetFactory(const DataParameter_DB& type)`
(dataset_factory.cpp): a switch on the backend kind. The LMDB case returns
NULL (`none`) on the `_MSC_VER` build, where lmdb is not integrated; the
default case is `LOG(FATAL) << "Unknown dataset type " << type`. The
returned shared_ptr is modelled as `Option DatasetInstance` (NULL = none). -/
def DatasetFactoryByDB (msvc : Bool) (type : DataParameter_DB) :
    Except String (Option DatasetInstance) :=
  if type = DataParameter_DB_LEVELDB then
    .ok (some DatasetInstance.LeveldbDataset)
  else if type = DataParameter_DB_LMDB then
    (if msvc then .ok none
     else .ok (some DatasetInstance.LmdbDataset))
  else
    .error ("Unknown dataset type " ++ toString type)

/-- The string overload `DatasetFactory(const string& type)`
(dataset_factory.cpp): "leveldb" delegates to the enum overload with
LEVELDB; "lmdb" returns NULL directly on the `_MSC_VER` build and otherwise
delegates with LMDB; any other string is
`LOG(FATAL) << "Unknown dataset type " << type`. -/
def DatasetFactoryByString (msvc : Bool) (type : String) :
    Except String (Option DatasetInstance) :=
  if "leveldb" = type then
    DatasetFactoryByDB msvc DataParameter_DB_LEVELDB
  else if "lmdb" = type then
    (if msvc then .ok none
     else DatasetFactoryByDB msvc DataParameter_DB_LMDB)
  else
    .error ("Unknown dataset type " ++ type)

/-- The operations the LayerRegistry interface exposes on a registry:
AddCreator and CreateLayer (Registry itself only hands out the table). -/
inductive RegistryOp where
  | add (t : LayerType) (c : Creator)
  | create (param : LayerParameter)

/-- Effect of one interface operation on the registry state. AddCreator
may insert; CreateLayer reads the table (after its presence CHECK the
`registry[type]` access is a pure read) and leaves it unchanged, failing
fatally when the lookup or the creator fails. -/
def applyOp (reg : CreatorRegistry) : RegistryOp → Except String CreatorRegistry
  | .add t c => AddCreator reg t c
  | .create param =>
    match CreateLayer reg param with
    | .ok _ => .ok reg
    | .error e => .error e

/-- Effect of a sequence of interface operations, stopping at the first
fatal one. -/
def applyOps (reg : CreatorRegistry) : List RegistryOp → Except String CreatorRegistry
  | [] => .ok reg
  | op :: rest =>
    match applyOp reg op with
    | .ok reg2 => applyOps reg2 rest
    | .error e => .error e

/-- Substring containment on strings, used to state which diagnostic
messages mention which discriminator or name. -/
def strContains (s sub : String) : Prop :=
  ∃ pre post : String, s = pre ++ sub ++ post

/-- Concrete LayerParameter for witnesses: every engine preference set to
`e`, no padding, one top. -/
def engineParam (name : String) (t : LayerType) (e : Engine) : LayerParameter :=
  ⟨name, t, 1, ⟨e⟩, ⟨e, 0, 0, 0⟩, ⟨e⟩, ⟨e⟩, ⟨e⟩, ⟨e⟩⟩

/-- Concrete creator for witnesses, of the shape the REGISTER_LAYER_CLASS
macro generates (`return new clsname<Dtype>(param)`): constructs the layer
from the configuration, emitting no log lines. -/
def simpleCreator : Creator :=
  fun p => .ok ⟨[], .ConvolutionLayer p⟩

/-- For the unique-key map, count 0 means the key is absent. -/
theorem regCount_eq_zero_iff (reg : CreatorRegistry) (t : LayerType) :
    regCount reg t = 0 ↔ List.lookup t reg = none := by
  unfold regCount
  cases List.lookup t reg <;> simp

/-- For the unique-key map, count 1 means the key is present. -/
theorem regCount_eq_one_iff (reg : CreatorRegistry) (t : LayerType) :
    regCount reg t = 1 ↔ ∃ c, List.lookup t reg = some c := by
  unfold regCount
  cases List.lookup t reg <;> simp

/-- C1: for a layer type D registered (exactly once, as the unique-key map
guarantees: its count is 1) with creator c in the registry of one precision
tag, CreateLayer on a configuration whose type field is D returns the
non-absent instance produced by invoking c on that configuration (with the
"Creating layer" INFO line prepended); and registration on the other
precision tag's registry leaves this tag's registry — hence this mapping —
unchanged, the two registries being independent in content. -/
theorem createLayer_returns_registered_instance
    (st : TaggedRegistries) (tag : Precision) (D : LayerType) (c : Creator)
    (param : LayerParameter)
    (hreg : List.lookup D (st tag) = some c) (htype : param.type = D) :
    regCount (st tag) D = 1 ∧
    (∀ r, c param = .ok r →
      CreateLayer (st tag) param =
        .ok ⟨("Creating layer " ++ param.name) :: r.infoLogs, r.layer⟩) ∧
    (∀ tag2 t2 c2 st2, addCreatorTagged tag2 st t2 c2 = .ok st2 →
      tag2 ≠ tag → List.lookup D (st2 tag) = some c) := by
  refine ⟨(regCount_eq_one_iff _ _).mpr ⟨c, hreg⟩, ?_, ?_⟩
  · intro r hr
    unfold CreateLayer
    rw [htype, hreg]
    simp [hr]
  · intro tag2 t2 c2 st2 hadd hne
    unfold addCreatorTagged at hadd
    cases h : AddCreator (st tag2) t2 c2 with
    | ok reg =>
      rw [h] at hadd
      injection hadd with hst
      subst hst
      have hne2 : tag ≠ tag2 := Ne.symm hne
      simpa [hne2] using hreg
    | error e =>
      rw [h] at hadd
      cases hadd

/-- Witness for C1: a one-entry float registry maps type 0 to the simple
creator; CreateLayer on a configuration of type 0 returns the created
ConvolutionLayer instance. -/
theorem createLayer_returns_registered_instance_witness :
    CreateLayer ((fun _ => [(0, simpleCreator)] : TaggedRegistries) Precision.float)
        (engineParam "conv1" 0 Engine.DEFAULT) =
      .ok ⟨["Creating layer conv1"],
        .ConvolutionLayer (engineParam "conv1" 0 Engine.DEFAULT)⟩ :=
  (createLayer_returns_registered_instance (fun _ => [(0, simpleCreator)])
      Precision.float 0 simpleCreator (engineParam "conv1" 0 Engine.DEFAULT)
      rfl rfl).2.1
    ⟨[], .ConvolutionLayer (engineParam "conv1" 0 Engine.DEFAULT)⟩ rfl

/-- C2: AddCreator on a type already present in the registry of a precision
tag fails fatally (the CHECK_EQ diagnostic naming the type) and never
produces a successor registry — so the previously registered constructor is
unchanged on this error path; on an absent type it inserts the pair. -/
theorem addCreator_duplicate_is_fatal (reg : CreatorRegistry) (t : LayerType)
    (c c0 : Creator) (hpresent : List.lookup t reg = some c0) :
    AddCreator reg t c = .error (addCreatorFailMsg t) ∧
    (∀ reg2, AddCreator reg t c ≠ .ok reg2) ∧
    (∀ reg0 : CreatorRegistry, List.lookup t reg0 = none →
      AddCreator reg0 t c = .ok ((t, c) :: reg0)) := by
  have hcount : regCount reg t = 1 := (regCount_eq_one_iff _ _).mpr ⟨c0, hpresent⟩
  have h1 : AddCreator reg t c = .error (addCreatorFailMsg t) := by
    simp [AddCreator, hcount]
  refine ⟨h1, ?_, ?_⟩
  · intro reg2 hcontra
    rw [h1] at hcontra
    cases hcontra
  · intro reg0 habsent
    simp [AddCreator, (regCount_eq_zero_iff _ _).mpr habsent]

/-- Witness for C2: registering type 5 twice in a row is fatal, while the
first registration into the empty registry succeeds. -/
theorem addCreator_duplicate_is_fatal_witness :
    AddCreator [(5, simpleCreator)] 5 simpleCreator =
      .error (addCreatorFailMsg 5) ∧
    AddCreator ([] : CreatorRegistry) 5 simpleCreator =
      .ok [(5, simpleCreator)] := by
  have h := addCreator_duplicate_is_fatal [(5, simpleCreator)] 5
    simpleCreator simpleCreator rfl
  exact ⟨h.1, h.2.2 [] rfl⟩

/-- C3: CreateLayer on a configuration whose type is not registered
(count 0) fails fatally on the exactly-one-match CHECK and never returns an
instance. -/
theorem createLayer_unregistered_is_fatal (reg : CreatorRegistry)
    (param : LayerParameter) (habs : regCount reg param.type = 0) :
    CreateLayer reg param = .error createLayerFailMsg ∧
    (∀ r, CreateLayer reg param ≠ .ok r) := by
  have h := (regCount_eq_zero_iff _ _).mp habs
  have h1 : CreateLayer reg param = .error createLayerFailMsg := by
    unfold CreateLayer
    rw [h]
  refine ⟨h1, ?_⟩
  intro r hcontra
  rw [h1] at hcontra
  cases hcontra

/-- Witness for C3: looking up type 5 in a registry holding only type 0 is
fatal. -/
theorem createLayer_unregistered_is_fatal_witness :
    CreateLayer [(0, simpleCreator)] (engineParam "ip1" 5 Engine.DEFAULT) =
      .error createLayerFailMsg :=
  (createLayer_unregistered_is_fatal [(0, simpleCreator)]
    (engineParam "ip1" 5 Engine.DEFAULT) rfl).1

/-- C4: the shared resolution step maps a `default` engine preference to
CAFFE with the accelerated backend compiled out and to CUDNN with it
compiled in, and passes any explicit non-default preference through
unchanged; consequently each engine-selecting creator on a `default`
preference constructs the baseline implementation without CUDNN and the
accelerated one with CUDNN (for pooling, the resolution yields CUDNN; the
constructed instance is then subject only to the compatibility exception). -/
theorem engine_default_resolution :
    resolveEngine false Engine.DEFAULT = Engine.CAFFE ∧
    resolveEngine true Engine.DEFAULT = Engine.CUDNN ∧
    (∀ b e, e ≠ Engine.DEFAULT → resolveEngine b e = e) ∧
    (∀ param : LayerParameter, param.convolution_param.engine = Engine.DEFAULT →
      GetConvolutionLayer false param = .ok ⟨[], .ConvolutionLayer param⟩ ∧
      GetConvolutionLayer true param = .ok ⟨[], .CuDNNConvolutionLayer param⟩) ∧
    (∀ param : LayerParameter, param.pooling_param.engine = Engine.DEFAULT →
      GetPoolingLayer false param = .ok ⟨[], .PoolingLayer param⟩ ∧
      resolveEngine true param.pooling_param.engine = Engine.CUDNN) ∧
    (∀ param : LayerParameter, param.relu_param.engine = Engine.DEFAULT →
      GetReLULayer false param = .ok ⟨[], .ReLULayer param⟩ ∧
      GetReLULayer true param = .ok ⟨[], .CuDNNReLULayer param⟩) ∧
    (∀ param : LayerParameter, param.sigmoid_param.engine = Engine.DEFAULT →
      GetSigmoidLayer false param = .ok ⟨[], .SigmoidLayer param⟩ ∧
      GetSigmoidLayer true param = .ok ⟨[], .CuDNNSigmoidLayer param⟩) ∧
    (∀ param : LayerParameter, param.softmax_param.engine = Engine.DEFAULT →
      GetSoftmaxLayer false param = .ok ⟨[], .SoftmaxLayer param⟩ ∧
      GetSoftmaxLayer true param = .ok ⟨[], .CuDNNSoftmaxLayer param⟩) ∧
    (∀ param : LayerParameter, param.tanh_param.engine = Engine.DEFAULT →
      GetTanHLayer false param = .ok ⟨[], .TanHLayer param⟩ ∧
      GetTanHLayer true param = .ok ⟨[], .CuDNNTanHLayer param⟩) := by
  refine ⟨rfl, rfl, ?_, ?_, ?_, ?_, ?_, ?_, ?_⟩
  · intro b e he
    simp [resolveEngine, he]
  · intro param h
    exact ⟨by simp [GetConvolutionLayer, resolveEngine, h],
           by simp [GetConvolutionLayer, resolveEngine, h]⟩
  · intro param h
    exact ⟨by simp [GetPoolingLayer, resolveEngine, h],
           by simp [resolveEngine, h]⟩
  · intro param h
    exact ⟨by simp [GetReLULayer, resolveEngine, h],
           by simp [GetReLULayer, resolveEngine, h]⟩
  · intro param h
    exact ⟨by simp [GetSigmoidLayer, resolveEngine, h],
           by simp [GetSigmoidLayer, resolveEngine, h]⟩
  · intro param h
    exact ⟨by simp [GetSoftmaxLayer, resolveEngine, h],
           by simp [GetSoftmaxLayer, resolveEngine, h]⟩
  · intro param h
    exact ⟨by simp [GetTanHLayer, resolveEngine, h],
           by simp [GetTanHLayer, resolveEngine, h]⟩

/-- Witness for C4: a convolution configuration with engine `default`
yields the baseline layer when CUDNN is compiled out, and an explicit CAFFE
preference survives resolution. -/
theorem engine_default_resolution_witness :
    GetConvolutionLayer false (engineParam "conv1" 4 Engine.DEFAULT) =
      .ok ⟨[], .ConvolutionLayer (engineParam "conv1" 4 Engine.DEFAULT)⟩ ∧
    resolveEngine true Engine.CAFFE = Engine.CAFFE :=
  ⟨(engine_default_resolution.2.2.2.1 (engineParam "conv1" 4 Engine.DEFAULT)
      rfl).1,
   engine_default_resolution.2.2.1 true Engine.CAFFE (by decide)⟩

/-- C5: with CUDNN compiled in and the pooling engine resolved to CUDNN
(preference `default` or explicit CUDNN), requested padding (pad, pad_h or
pad_w nonzero) or more than one top makes GetPoolingLayer return the
baseline PoolingLayer with the informational downgrade log; otherwise it
returns the CuDNNPoolingLayer; and no other engine-selecting creator
downgrades: on a CUDNN-resolved engine the other five always return their
accelerated instance. -/
theorem pooling_cudnn_padding_downgrade (param : LayerParameter)
    (hengine : param.pooling_param.engine = Engine.DEFAULT ∨
      param.pooling_param.engine = Engine.CUDNN) :
    (param.pooling_param.pad ≠ 0 ∨ param.pooling_param.pad_h ≠ 0 ∨
        param.pooling_param.pad_w ≠ 0 ∨ param.top_size > 1 →
      GetPoolingLayer true param =
        .ok ⟨[poolingDowngradeMsg], .PoolingLayer param⟩) ∧
    (¬(param.pooling_param.pad ≠ 0 ∨ param.pooling_param.pad_h ≠ 0 ∨
        param.pooling_param.pad_w ≠ 0 ∨ param.top_size > 1) →
      GetPoolingLayer true param = .ok ⟨[], .CuDNNPoolingLayer param⟩) ∧
    (∀ q : LayerParameter, q.convolution_param.engine = Engine.DEFAULT ∨
        q.convolution_param.engine = Engine.CUDNN →
      GetConvolutionLayer true q = .ok ⟨[], .CuDNNConvolutionLayer q⟩) ∧
    (∀ q : LayerParameter, q.relu_param.engine = Engine.DEFAULT ∨
        q.relu_param.engine = Engine.CUDNN →
      GetReLULayer true q = .ok ⟨[], .CuDNNReLULayer q⟩) ∧
    (∀ q : LayerParameter, q.sigmoid_param.engine = Engine.DEFAULT ∨
        q.sigmoid_param.engine = Engine.CUDNN →
      GetSigmoidLayer true q = .ok ⟨[], .CuDNNSigmoidLayer q⟩) ∧
    (∀ q : LayerParameter, q.softmax_param.engine = Engine.DEFAULT ∨
        q.softmax_param.engine = Engine.CUDNN →
      GetSoftmaxLayer true q = .ok ⟨[], .CuDNNSoftmaxLayer q⟩) ∧
    (∀ q : LayerParameter, q.tanh_param.engine = Engine.DEFAULT ∨
        q.tanh_param.engine = Engine.CUDNN →
      GetTanHLayer true q = .ok ⟨[], .CuDNNTanHLayer q⟩) := by
  refine ⟨?_, ?_, ?_, ?_, ?_, ?_, ?_⟩
  · intro hpad
    rcases hengine with h | h <;>
      · simp only [GetPoolingLayer, resolveEngine, h]
        simp [hpad]
  · intro hpad
    rcases hengine with h | h <;>
      · simp only [GetPoolingLayer, resolveEngine, h]
        simp [hpad]
  · intro q hq
    rcases hq with h | h <;> simp [GetConvolutionLayer, resolveEngine, h]
  · intro q hq
    rcases hq with h | h <;> simp [GetReLULayer, resolveEngine, h]
  · intro q hq
    rcases hq with h | h <;> simp [GetSigmoidLayer, resolveEngine, h]
  · intro q hq
    rcases hq with h | h <;> simp [GetSoftmaxLayer, resolveEngine, h]
  · intro q hq
    rcases hq with h | h <;> simp [GetTanHLayer, resolveEngine, h]

/-- Concrete pooling configuration for the C5 witness: explicit CUDNN
engine, pad = 1, one top. -/
def paddedPoolParam : LayerParameter :=
  ⟨"pool1", 17, 1, ⟨Engine.DEFAULT⟩, ⟨Engine.CUDNN, 1, 0, 0⟩,
    ⟨Engine.DEFAULT⟩, ⟨Engine.DEFAULT⟩, ⟨Engine.DEFAULT⟩, ⟨Engine.DEFAULT⟩⟩

/-- Witness for C5: requesting CUDNN pooling with pad = 1 (CUDNN compiled
in) yields the baseline pooling layer plus the informational log. -/
theorem pooling_cudnn_padding_downgrade_witness :
    GetPoolingLayer true paddedPoolParam =
      .ok ⟨[poolingDowngradeMsg], .PoolingLayer paddedPoolParam⟩ :=
  (pooling_cudnn_padding_downgrade paddedPoolParam (Or.inr rfl)).1
    (Or.inl (by decide))

/-- C6: in every engine-selecting creator, a resolved engine that is
neither CAFFE nor a compiled-in CUDNN (in particular CUDNN requested with
the backend compiled out) is fatal with the diagnostic naming the layer and
"has unknown engine.", and no instance is returned on that path. -/
theorem unknown_engine_is_fatal (cudnn : Bool) (param : LayerParameter) :
    (resolveEngine cudnn param.convolution_param.engine ≠ Engine.CAFFE →
      ¬(cudnn = true ∧
        resolveEngine cudnn param.convolution_param.engine = Engine.CUDNN) →
      GetConvolutionLayer cudnn param = .error (unknownEngineMsg param.name) ∧
      ∀ r, GetConvolutionLayer cudnn param ≠ .ok r) ∧
    (resolveEngine cudnn param.pooling_param.engine ≠ Engine.CAFFE →
      ¬(cudnn = true ∧
        resolveEngine cudnn param.pooling_param.engine = Engine.CUDNN) →
      GetPoolingLayer cudnn param = .error (unknownEngineMsg param.name) ∧
      ∀ r, GetPoolingLayer cudnn param ≠ .ok r) ∧
    (resolveEngine cudnn param.relu_param.engine ≠ Engine.CAFFE →
      ¬(cudnn = true ∧
        resolveEngine cudnn param.relu_param.engine = Engine.CUDNN) →
      GetReLULayer cudnn param = .error (unknownEngineMsg param.name) ∧
      ∀ r, GetReLULayer cudnn param ≠ .ok r) ∧
    (resolveEngine cudnn param.sigmoid_param.engine ≠ Engine.CAFFE →
      ¬(cudnn = true ∧
        resolveEngine cudnn param.sigmoid_param.engine = Engine.CUDNN) →
      GetSigmoidLayer cudnn param = .error (unknownEngineMsg param.name) ∧
      ∀ r, GetSigmoidLayer cudnn param ≠ .ok r) ∧
    (resolveEngine cudnn param.softmax_param.engine ≠ Engine.CAFFE →
      ¬(cudnn = true ∧
        resolveEngine cudnn param.softmax_param.engine = Engine.CUDNN) →
      GetSoftmaxLayer cudnn param = .error (unknownEngineMsg param.name) ∧
      ∀ r, GetSoftmaxLayer cudnn param ≠ .ok r) ∧
    (resolveEngine cudnn param.tanh_param.engine ≠ Engine.CAFFE →
      ¬(cudnn = true ∧
        resolveEngine cudnn param.tanh_param.engine = Engine.CUDNN) →
      GetTanHLayer cudnn param = .error (unknownEngineMsg param.name) ∧
      ∀ r, GetTanHLayer cudnn param ≠ .ok r) := by
  refine ⟨?_, ?_, ?_, ?_, ?_, ?_⟩ <;>
    · intro h1 h2
      constructor
      · simp [GetConvolutionLayer, GetPoolingLayer, GetReLULayer,
          GetSigmoidLayer, GetSoftmaxLayer, GetTanHLayer, h1, h2]
      · intro r hr
        simp [GetConvolutionLayer, GetPoolingLayer, GetReLULayer,
          GetSigmoidLayer, GetSoftmaxLayer, GetTanHLayer, h1, h2] at hr

/-- Witness for C6: an explicit CUDNN preference with CUDNN compiled out is
fatal for the convolution creator. -/
theorem unknown_engine_is_fatal_witness :
    GetConvolutionLayer false (engineParam "conv2" 4 Engine.CUDNN) =
      .error (unknownEngineMsg "conv2") :=
  ((unknown_engine_is_fatal false (engineParam "conv2" 4 Engine.CUDNN)).1
    (by decide) (by decide)).1

/-- C7: the string overload of DatasetFactory agrees with the enum
overload under the alias map "leveldb" to LEVELDB and "lmdb" to LMDB (the
latter on every build, in particular when the backend is available), both
yield the leveldb adapter for "leveldb"/LEVELDB and the lmdb adapter for
LMDB on the non-restricted build, and every other string or enum value is
fatal with the "Unknown dataset type" diagnostic. -/
theorem datasetFactory_string_enum_equivalence :
    (∀ msvc, DatasetFactoryByString msvc "leveldb" =
        DatasetFactoryByDB msvc DataParameter_DB_LEVELDB ∧
      DatasetFactoryByDB msvc DataParameter_DB_LEVELDB =
        .ok (some DatasetInstance.LeveldbDataset)) ∧
    (∀ msvc, DatasetFactoryByString msvc "lmdb" =
        DatasetFactoryByDB msvc DataParameter_DB_LMDB) ∧
    DatasetFactoryByDB false DataParameter_DB_LMDB =
      .ok (some DatasetInstance.LmdbDataset) ∧
    (∀ msvc s, s ≠ "leveldb" → s ≠ "lmdb" →
      DatasetFactoryByString msvc s = .error ("Unknown dataset type " ++ s)) ∧
    (∀ msvc t, t ≠ DataParameter_DB_LEVELDB → t ≠ DataParameter_DB_LMDB →
      DatasetFactoryByDB msvc t =
        .error ("Unknown dataset type " ++ toString t)) := by
  refine ⟨?_, ?_, rfl, ?_, ?_⟩
  · intro msvc
    cases msvc <;> exact ⟨rfl, rfl⟩
  · intro msvc
    cases msvc <;> rfl
  · intro msvc s h1 h2
    simp [DatasetFactoryByString, Ne.symm h1, Ne.symm h2]
  · intro msvc t h1 h2
    simp [DatasetFactoryByDB, h1, h2]

/-- Witness for C7: a case variant of "leveldb" and the out-of-range enum
value 7 are both fatal with the "Unknown dataset type" diagnostic. -/
theorem datasetFactory_string_enum_equivalence_witness :
    DatasetFactoryByString false "LevelDB" =
      .error ("Unknown dataset type " ++ "LevelDB") ∧
    DatasetFactoryByDB true 7 =
      .error ("Unknown dataset type " ++ toString (7 : Nat)) :=
  ⟨datasetFactory_string_enum_equivalence.2.2.2.1 false "LevelDB"
      (by decide) (by decide),
   datasetFactory_string_enum_equivalence.2.2.2.2 true 7
      (by decide) (by decide)⟩

/-- C8: on the platform-restricted (`_MSC_VER`) build, requesting the
excluded LMDB backend returns the absent result (NULL) instead of
terminating, through either overload; that request is the only one that
degrades (no other input yields an absent result, on either build), and
all other unrecognized requests remain fatal. -/
theorem lmdb_platform_unavailable_absent :
    DatasetFactoryByDB true DataParameter_DB_LMDB = .ok none ∧
    DatasetFactoryByString true "lmdb" = .ok none ∧
    (∀ t, DatasetFactoryByDB true t = .ok none → t = DataParameter_DB_LMDB) ∧
    (∀ s, DatasetFactoryByString true s = .ok none → s = "lmdb") ∧
    (∀ t, DatasetFactoryByDB false t ≠ .ok none) ∧
    (∀ s, DatasetFactoryByString false s ≠ .ok none) ∧
    (∀ t, t ≠ DataParameter_DB_LEVELDB → t ≠ DataParameter_DB_LMDB →
      DatasetFactoryByDB true t =
        .error ("Unknown dataset type " ++ toString t)) ∧
    (∀ s, s ≠ "leveldb" → s ≠ "lmdb" →
      DatasetFactoryByString true s =
        .error ("Unknown dataset type " ++ s)) := by
  refine ⟨rfl, rfl, ?_, ?_, ?_, ?_, ?_, ?_⟩
  · intro t h
    by_cases h0 : t = 0
    · simp [DatasetFactoryByDB, DataParameter_DB_LEVELDB, h0] at h
    · by_cases h1 : t = 1
      · exact h1
      · simp [DatasetFactoryByDB, DataParameter_DB_LEVELDB,
          DataParameter_DB_LMDB, h0, h1] at h
  · intro s h
    by_cases h0 : s = "leveldb"
    · simp [DatasetFactoryByString, DatasetFactoryByDB,
        DataParameter_DB_LEVELDB, h0] at h
    · by_cases h1 : s = "lmdb"
      · exact h1
      · have h0' : "leveldb" ≠ s := Ne.symm h0
        have h1' : "lmdb" ≠ s := Ne.symm h1
        simp [DatasetFactoryByString, h0', h1'] at h
  · intro t h
    by_cases h0 : t = 0
    · simp [DatasetFactoryByDB, DataParameter_DB_LEVELDB, h0] at h
    · by_cases h1 : t = 1
      · simp [DatasetFactoryByDB, DataParameter_DB_LEVELDB,
          DataParameter_DB_LMDB, h0, h1] at h
      · simp [DatasetFactoryByDB, DataParameter_DB_LEVELDB,
          DataParameter_DB_LMDB, h0, h1] at h
  · intro s h
    by_cases h0 : s = "leveldb"
    · simp [DatasetFactoryByString, DatasetFactoryByDB,
        DataParameter_DB_LEVELDB, h0] at h
    · by_cases h1 : s = "lmdb"
      · simp [DatasetFactoryByString, DatasetFactoryByDB,
          DataParameter_DB_LEVELDB, DataParameter_DB_LMDB, h0, h1] at h
      · have h0' : "leveldb" ≠ s := Ne.symm h0
        have h1' : "lmdb" ≠ s := Ne.symm h1
        simp [DatasetFactoryByString, h0', h1'] at h
  · intro t h1 h2
    simp only [DataParameter_DB_LEVELDB] at h1
    simp only [DataParameter_DB_LMDB] at h2
    simp [DatasetFactoryByDB, DataParameter_DB_LEVELDB,
      DataParameter_DB_LMDB, h1, h2]
  · intro s h1 h2
    have h1' : "leveldb" ≠ s := Ne.symm h1
    have h2' : "lmdb" ≠ s := Ne.symm h2
    simp [DatasetFactoryByString, h1', h2']

/-- Witness for C8: on the platform-restricted build the enum request for
LMDB yields the absent result, while the out-of-range enum value 3 stays
fatal. -/
theorem lmdb_platform_unavailable_absent_witness :
    DatasetFactoryByDB true DataParameter_DB_LMDB = .ok none ∧
    DatasetFactoryByDB true 3 =
      .error ("Unknown dataset type " ++ toString (3 : Nat)) :=
  ⟨lmdb_platform_unavailable_absent.1,
   lmdb_platform_unavailable_absent.2.2.2.2.2.2.1 3 (by decide) (by decide)⟩

/-- Counterexample for C9: looking up the unregistered type 5 makes
CreateLayer fail on the bare `CHECK_EQ(registry.count(type), 1)`, whose
diagnostic is the fixed count-mismatch text; the digit string "5" of the
offending discriminator does not occur in it, so this fatal path does not
name the discriminator that was looked up. -/
theorem createLayer_fatal_lacks_discriminator :
    CreateLayer ([] : CreatorRegistry) (engineParam "data1" 5 Engine.DEFAULT) =
      .error createLayerFailMsg ∧
    ¬ strContains createLayerFailMsg (toString (5 : LayerType)) := by
  constructor
  · rfl
  · rintro ⟨pre, post, h⟩
    have h5 : toString (5 : LayerType) = "5" := rfl
    rw [h5] at h
    have hmem : '5' ∈ (pre ++ "5" ++ post).data := by
      simp [String.data_append]
    rw [← h] at hmem
    revert hmem
    decide

/-- C9 as amended: the duplicate-registration diagnostic names the layer
type, the unknown-engine diagnostics name the layer, and the
unknown-dataset diagnostics name the requested kind or alias; but the
unregistered-lookup failure in CreateLayer emits only the fixed
count-mismatch check failure, which does not name the discriminator. -/
theorem fatal_diagnostics_identify_offender :
    (∀ (reg : CreatorRegistry) (t : LayerType) (c c0 : Creator),
      List.lookup t reg = some c0 →
      AddCreator reg t c = .error (addCreatorFailMsg t) ∧
      strContains (addCreatorFailMsg t) (toString t)) ∧
    (∀ param : LayerParameter, param.convolution_param.engine = Engine.CUDNN →
      GetConvolutionLayer false param = .error (unknownEngineMsg param.name)) ∧
    (∀ param : LayerParameter, param.pooling_param.engine = Engine.CUDNN →
      GetPoolingLayer false param = .error (unknownEngineMsg param.name)) ∧
    (∀ param : LayerParameter, param.relu_param.engine = Engine.CUDNN →
      GetReLULayer false param = .error (unknownEngineMsg param.name)) ∧
    (∀ param : LayerParameter, param.sigmoid_param.engine = Engine.CUDNN →
      GetSigmoidLayer false param = .error (unknownEngineMsg param.name)) ∧
    (∀ param : LayerParameter, param.softmax_param.engine = Engine.CUDNN →
      GetSoftmaxLayer false param = .error (unknownEngineMsg param.name)) ∧
    (∀ param : LayerParameter, param.tanh_param.engine = Engine.CUDNN →
      GetTanHLayer false param = .error (unknownEngineMsg param.name)) ∧
    (∀ name, strContains (unknownEngineMsg name) name) ∧
    (∀ t : DataParameter_DB, t ≠ DataParameter_DB_LEVELDB →
      t ≠ DataParameter_DB_LMDB → ∀ msvc,
      DatasetFactoryByDB msvc t =
        .error ("Unknown dataset type " ++ toString t) ∧
      strContains ("Unknown dataset type " ++ toString t) (toString t)) ∧
    (∀ s : String, s ≠ "leveldb" → s ≠ "lmdb" → ∀ msvc,
      DatasetFactoryByString msvc s = .error ("Unknown dataset type " ++ s) ∧
      strContains ("Unknown dataset type " ++ s) s) ∧
    (∀ (reg : CreatorRegistry) (param : LayerParameter),
      regCount reg param.type = 0 →
      CreateLayer reg param = .error createLayerFailMsg) := by
  refine ⟨?_, ?_, ?_, ?_, ?_, ?_, ?_, ?_, ?_, ?_, ?_⟩
  · intro reg t c c0 hpresent
    have hcount : regCount reg t = 1 :=
      (regCount_eq_one_iff _ _).mpr ⟨c0, hpresent⟩
    refine ⟨by simp [AddCreator, hcount], ?_⟩
    exact ⟨"Check failed: registry.count(type) == 0 (1 vs. 0) Layer type ",
      " already registered.", rfl⟩
  · intro param h
    simp [GetConvolutionLayer, resolveEngine, h, unknownEngineMsg]
  · intro param h
    simp [GetPoolingLayer, resolveEngine, h, unknownEngineMsg]
  · intro param h
    simp [GetReLULayer, resolveEngine, h, unknownEngineMsg]
  · intro param h
    simp [GetSigmoidLayer, resolveEngine, h, unknownEngineMsg]
  · intro param h
    simp [GetSoftmaxLayer, resolveEngine, h, unknownEngineMsg]
  · intro param h
    simp [GetTanHLayer, resolveEngine, h, unknownEngineMsg]
  · intro name
    exact ⟨"Layer ", " has unknown engine.", rfl⟩
  · intro t h1 h2 msvc
    constructor
    · simp only [DataParameter_DB_LEVELDB] at h1
      simp only [DataParameter_DB_LMDB] at h2
      simp [DatasetFactoryByDB, DataParameter_DB_LEVELDB,
        DataParameter_DB_LMDB, h1, h2]
    · exact ⟨"Unknown dataset type ", "", by simp⟩
  · intro s h1 h2 msvc
    have h1' : "leveldb" ≠ s := Ne.symm h1
    have h2' : "lmdb" ≠ s := Ne.symm h2
    exact ⟨by simp [DatasetFactoryByString, h1', h2'],
      "Unknown dataset type ", "", by simp⟩
  · intro reg param habs
    have h := (regCount_eq_zero_iff _ _).mp habs
    unfold CreateLayer
    rw [h]

/-- Witness for the amended C9: registering type 7 twice is fatal with a
diagnostic containing "7", and the CUDNN-compiled-out convolution creator
on an explicit CUDNN preference names layer "conv2" in its fatal
diagnostic. -/
theorem fatal_diagnostics_identify_offender_witness :
    AddCreator [(7, simpleCreator)] 7 simpleCreator =
      .error (addCreatorFailMsg 7) ∧
    strContains (addCreatorFailMsg 7) (toString (7 : LayerType)) ∧
    GetConvolutionLayer false (engineParam "conv2" 4 Engine.CUDNN) =
      .error (unknownEngineMsg "conv2") := by
  have h := fatal_diagnostics_identify_offender
  exact ⟨(h.1 [(7, simpleCreator)] 7 simpleCreator simpleCreator rfl).1,
    (h.1 [(7, simpleCreator)] 7 simpleCreator simpleCreator rfl).2,
    h.2.1 (engineParam "conv2" 4 Engine.CUDNN) rfl⟩

/-- One interface operation preserves any mapping already in the registry:
a successful AddCreator has checked its key absent (so it is a different
key), and CreateLayer leaves the table unchanged. -/
theorem applyOp_preserves_lookup (reg reg2 : CreatorRegistry)
    (op : RegistryOp) (D : LayerType) (c : Creator)
    (hD : List.lookup D reg = some c) (h : applyOp reg op = .ok reg2) :
    List.lookup D reg2 = some c := by
  cases op with
  | add t c2 =>
    simp only [applyOp, AddCreator] at h
    by_cases h0 : regCount reg t = 0
    · rw [if_pos h0] at h
      injection h with h'
      subst h'
      have ht : List.lookup t reg = none := (regCount_eq_zero_iff _ _).mp h0
      have hDt : D ≠ t := by
        intro hEq
        rw [hEq] at hD
        rw [hD] at ht
        cases ht
      have hne : (D == t) = false := beq_eq_false_iff_ne.mpr hDt
      simp [List.lookup, hne, hD]
    · rw [if_neg h0] at h
      cases h
  | create param =>
    simp only [applyOp] at h
    cases hc : CreateLayer reg param with
    | ok r =>
      rw [hc] at h
      injection h with h'
      subst h'
      exact hD
    | error e =>
      rw [hc] at h
      cases h

/-- C10: registry monotonicity — once a layer type maps to a creator, any
sequence of interface operations (AddCreator and CreateLayer calls) that
runs without a fatal error preserves that mapping: nothing removes or
replaces an entry. -/
theorem registry_monotonic (ops : List RegistryOp) :
    ∀ (reg reg2 : CreatorRegistry) (D : LayerType) (c : Creator),
      List.lookup D reg = some c → applyOps reg ops = .ok reg2 →
      List.lookup D reg2 = some c := by
  induction ops with
  | nil =>
    intro reg reg2 D c hD h
    unfold applyOps at h
    injection h with h'
    subst h'
    exact hD
  | cons op rest ih =>
    intro reg reg2 D c hD h
    unfold applyOps at h
    cases hop : applyOp reg op with
    | ok regmid =>
      rw [hop] at h
      exact ih regmid reg2 D c
        (applyOp_preserves_lookup reg regmid op D c hD hop) h
    | error e =>
      rw [hop] at h
      cases h

/-- Operation sequence for the C10 witness: register type 7, then create a
layer of the already-registered type 3. -/
def opsWitness : List RegistryOp :=
  [.add 7 simpleCreator, .create (engineParam "conv3" 3 Engine.DEFAULT)]

/-- Witness for C10: starting from a registry mapping type 3, running the
witness operations succeeds and the mapping for type 3 survives. -/
theorem registry_monotonic_witness :
    applyOps [(3, simpleCreator)] opsWitness =
      .ok [(7, simpleCreator), (3, simpleCreator)] ∧
    List.lookup 3 [(7, simpleCreator), (3, simpleCreator)] =
      some simpleCreator :=
  ⟨rfl, registry_monotonic opsWitness [(3, simpleCreator)]
    [(7, simpleCreator), (3, simpleCreator)] 3 simpleCreator rfl rfl⟩

end Caffe
